import Mathlib

/-!
Verification development for the Eunoia journaling frontend core:
the resilient API client (`src/services/api.ts`, axios interceptors) and
the standardized error classification service
(`src/frontend/src/utils/errorHandler.ts`).

The embedding is shallow: JavaScript values that the classifier inspects
are modelled by an inductive `JsValue`; property access on `null`/
`undefined` raises a `JsError` exactly as in JavaScript.  The interceptor
pipeline is modelled as an explicit state-passing interpreter over a
`ClientState` that scripts the session provider (refresh outcomes) and
the server (one response per dispatch), while recording the observable
side effects: dispatches with their Authorization headers, refresh calls,
sign-outs, storage clears and redirects.
-/

namespace Eunoia

/-! ## JavaScript value embedding -/

/-- Untyped JavaScript values, as far as the error classifier and the
response bodies need them.  `fn` stands for a built-in function value
reached through prototype lookup (e.g. `Array.prototype.entries`),
identified by its name. -/
inductive JsValue where
  | null
  | undefined
  | boolean (b : Bool)
  | num (n : Nat)
  | str (s : String)
  | arr (xs : List JsValue)
  | obj (fields : List (String × JsValue))
  | fn (name : String)

/-- A thrown JavaScript runtime error (only TypeError arises here: property
access on `null`/`undefined`). -/
inductive JsError where
  | typeError
deriving DecidableEq

/-- Look up a field of an object literal (first occurrence wins). -/
def lookupField : List (String × JsValue) → String → Option JsValue
  | [], _ => none
  | (k, v) :: rest, key => if k = key then some v else lookupField rest key

/-- Property resolution on a non-null/non-undefined value: own fields of
object literals; for arrays, the own `length` property and the inherited
`Array.prototype` iteration methods (`entries`, `keys`, `values`) —
parsed-JSON arrays really do answer `data.entries` with that built-in
function; for strings, the own `length`.  Other built-in prototype
members (`toString`, `hasOwnProperty`, …) are not modelled: no key this
program accesses collides with them. -/
def propLookup : JsValue → String → Option JsValue
  | .obj fs, k => lookupField fs k
  | .arr xs, k =>
    if k = "length" then some (.num xs.length)
    else if k = "entries" then some (.fn "Array.prototype.entries")
    else if k = "keys" then some (.fn "Array.prototype.keys")
    else if k = "values" then some (.fn "Array.prototype.values")
    else none
  | .str s, k => if k = "length" then some (.num s.length) else none
  | _, _ => none

/-- JavaScript property access `v.k`: throws TypeError on `null` and
`undefined`, otherwise resolves the property (own field or modelled
prototype member), yielding `undefined` when absent. -/
def getProp : JsValue → String → Except JsError JsValue
  | .null, _ => .error .typeError
  | .undefined, _ => .error .typeError
  | v, k => .ok ((propLookup v k).getD .undefined)

/-- JavaScript truthiness. -/
def truthy : JsValue → Bool
  | .null => false
  | .undefined => false
  | .boolean b => b
  | .num n => n != 0
  | .str s => s != ""
  | .arr _ => true
  | .obj _ => true
  | .fn _ => true

/-- Optional chaining `v?.k`: `undefined` when `v` is `null`/`undefined`,
otherwise plain property access (total on the remaining constructors). -/
def optChain (v : JsValue) (k : String) : JsValue :=
  match v with
  | .null => .undefined
  | .undefined => .undefined
  | v => (propLookup v k).getD .undefined

/-- Nullish coalescing `a ?? b`. -/
def nullish (a b : JsValue) : JsValue :=
  match a with
  | .null => b
  | .undefined => b
  | v => v

/-- `String(v)` coercion, as far as the classifier stringifies values
(the rendering of a built-in function is abbreviated to its name). -/
def jsToString : JsValue → String
  | .null => "null"
  | .undefined => "undefined"
  | .boolean b => if b then "true" else "false"
  | .num n => toString n
  | .str s => s
  | .arr _ => ""
  | .obj _ => "[object Object]"
  | .fn name => "function " ++ name

/-- `v.k` seen as an optional field: `some` only when `v` is an object
that carries the field.  Used to state when a response body has no
`entries` field. -/
def jsField (v : JsValue) (k : String) : Option JsValue :=
  match v with
  | .obj fs => lookupField fs k
  | _ => none

/-! ## Error classification service (`errorHandler.ts`) -/

/-- The `ErrorCode` enum of `errorHandler.ts`, constructor for constructor. -/
inductive ErrorCode where
  | NETWORK_ERROR
  | API_TIMEOUT
  | API_UNAUTHORIZED
  | API_FORBIDDEN
  | API_NOT_FOUND
  | API_SERVER_ERROR
  | VALIDATION_ERROR
  | REQUIRED_FIELD_MISSING
  | INVALID_FORMAT
  | AUTH_TOKEN_MISSING
  | AUTH_TOKEN_EXPIRED
  | AUTH_LOGIN_FAILED
  | DATA_LOAD_ERROR
  | DATA_SAVE_ERROR
  | DATA_NOT_FOUND
  | ML_ANALYSIS_ERROR
  | ML_SERVICE_UNAVAILABLE
  | UNKNOWN_ERROR
  | CONFIGURATION_ERROR
deriving DecidableEq

/-- Every member of the `ErrorCode` enum, in source order. -/
def allErrorCodes : List ErrorCode :=
  [.NETWORK_ERROR, .API_TIMEOUT, .API_UNAUTHORIZED, .API_FORBIDDEN,
   .API_NOT_FOUND, .API_SERVER_ERROR, .VALIDATION_ERROR,
   .REQUIRED_FIELD_MISSING, .INVALID_FORMAT, .AUTH_TOKEN_MISSING,
   .AUTH_TOKEN_EXPIRED, .AUTH_LOGIN_FAILED, .DATA_LOAD_ERROR,
   .DATA_SAVE_ERROR, .DATA_NOT_FOUND, .ML_ANALYSIS_ERROR,
   .ML_SERVICE_UNAVAILABLE, .UNKNOWN_ERROR, .CONFIGURATION_ERROR]

/-- The `ErrorSeverity` enum. -/
inductive ErrorSeverity where
  | low
  | medium
  | high
  | critical
deriving DecidableEq

/-- The static user-message table of `getUserFriendlyMessage`
(a `Record<ErrorCode, string>`, hence total over the enum). -/
def userMessages : ErrorCode → String
  | .NETWORK_ERROR => "Unable to connect to the server. Please check your internet connection."
  | .API_TIMEOUT => "The request is taking too long. Please try again."
  | .API_UNAUTHORIZED => "Please log in to continue."
  | .API_FORBIDDEN => "You do not have permission to perform this action."
  | .API_NOT_FOUND => "The requested resource was not found."
  | .API_SERVER_ERROR => "Something went wrong on our end. Please try again later."
  | .VALIDATION_ERROR => "Please check your input and try again."
  | .REQUIRED_FIELD_MISSING => "Please fill in all required fields."
  | .INVALID_FORMAT => "Please check the format of your input."
  | .AUTH_TOKEN_MISSING => "Please log in to continue."
  | .AUTH_TOKEN_EXPIRED => "Your session has expired. Please log in again."
  | .AUTH_LOGIN_FAILED => "Login failed. Please check your credentials."
  | .DATA_LOAD_ERROR => "Failed to load data. Please try refreshing the page."
  | .DATA_SAVE_ERROR => "Failed to save data. Please try again."
  | .DATA_NOT_FOUND => "No data found."
  | .ML_ANALYSIS_ERROR => "AI analysis is temporarily unavailable. Your entry has been saved."
  | .ML_SERVICE_UNAVAILABLE => "AI features are temporarily unavailable."
  | .UNKNOWN_ERROR => "An unexpected error occurred. Please try again."
  | .CONFIGURATION_ERROR => "Application configuration error. Please contact support."

/-- The `StandardError` record (ErrorRecord).  The diagnostic `context`
(requestId from wall-clock time and randomness, timestamp) and the
`originalError` back-reference are elided: they are nondeterministic
carriers, irrelevant to the classified content. -/
structure StandardError where
  code : ErrorCode
  message : String
  detail : Option String
  severity : ErrorSeverity
  userMessage : String
deriving DecidableEq

/-- `ErrorHandler.createError` as record construction: severity is what
the caller chose (the source defaults it to medium), `userMessage` comes
from the static table.  The log-append side effect is modelled
separately by `logError`. -/
def createError (code : ErrorCode) (message : String) (detail : Option String)
    (severity : ErrorSeverity) : StandardError :=
  { code := code, message := message, detail := detail, severity := severity,
    userMessage := userMessages code }

/-- `ErrorHandler.logError`: `this.errorLog.push(error)` — append one
record to the in-memory log. -/
def logError (log : List StandardError) (e : StandardError) : List StandardError :=
  log ++ [e]

/-- `ErrorHandler.clearErrorLog`: `this.errorLog = []`. -/
def clearErrorLog (_log : List StandardError) : List StandardError := []

/-- `ErrorHandler.getRecentErrors(limit)`: `this.errorLog.slice(-limit)`;
JavaScript `slice(-0)` is `slice(0)`, the whole array. -/
def getRecentErrors (limit : Nat) (log : List StandardError) : List StandardError :=
  if limit = 0 then log else log.drop (log.length - limit)

/-- `ErrorHandler.handleApiError(error)`: classify an arbitrarily-shaped
raw failure.  Follows the source line by line: read `err.response`
(throws on `null`/`undefined` input), branch on its truthiness, switch on
`err.response.status`, else branch on `err.request`.  `detail` is
`data?.detail || String(err.message || '')`. -/
def handleApiError (error : JsValue) : Except JsError StandardError := do
  let resp ← getProp error "response"
  if truthy resp then
    let statusV ← getProp resp "status"
    let dataV ← getProp resp "data"
    let msgV ← getProp error "message"
    let d := optChain dataV "detail"
    let detailStr := if truthy d then jsToString d
      else jsToString (if truthy msgV then msgV else .str "")
    match statusV with
    | .num n =>
      if n = 400 then
        pure (createError .VALIDATION_ERROR
          (if truthy d then jsToString d else "Bad request") (some detailStr) .medium)
      else if n = 401 then
        pure (createError .API_UNAUTHORIZED "Unauthorized" (some detailStr) .high)
      else if n = 403 then
        pure (createError .API_FORBIDDEN "Forbidden" (some detailStr) .high)
      else if n = 404 then
        pure (createError .API_NOT_FOUND "Not found" (some detailStr) .medium)
      else if n = 408 then
        pure (createError .API_TIMEOUT "Request timeout" (some detailStr) .medium)
      else if n = 500 ∨ n = 502 ∨ n = 503 ∨ n = 504 then
        pure (createError .API_SERVER_ERROR "Server error" (some detailStr) .high)
      else
        pure (createError .API_SERVER_ERROR ("HTTP " ++ toString n ++ " error")
          (some detailStr) .medium)
    | other =>
      pure (createError .API_SERVER_ERROR ("HTTP " ++ jsToString other ++ " error")
        (some detailStr) .medium)
  else
    let reqV ← getProp error "request"
    let msgV ← getProp error "message"
    if truthy reqV then
      pure (createError .NETWORK_ERROR "Network error"
        (some (jsToString (if truthy msgV then msgV else .str ""))) .high)
    else
      pure (createError .UNKNOWN_ERROR "Unknown error"
        (some (jsToString (if truthy msgV then msgV else .str ""))) .medium)

/-- Modelled from the spec (§4.1 words, for refinement against
`handleApiError`): the demanded status → `(code, severity)` table. -/
def specStatusPair (s : Nat) : ErrorCode × ErrorSeverity :=
  if s = 400 then (.VALIDATION_ERROR, .medium)
  else if s = 401 then (.API_UNAUTHORIZED, .high)
  else if s = 403 then (.API_FORBIDDEN, .high)
  else if s = 404 then (.API_NOT_FOUND, .medium)
  else if s = 408 then (.API_TIMEOUT, .medium)
  else if s = 500 ∨ s = 502 ∨ s = 503 ∨ s = 504 then (.API_SERVER_ERROR, .high)
  else (.API_SERVER_ERROR, .medium)

/-! ## Resilient API client (`api.ts` interceptors) -/

/-- A Supabase session as the client reads it: `access_token` and an
optional absolute `expires_at` (epoch seconds; the source substitutes 0
when absent). -/
structure Session where
  access_token : String
  expires_at : Option Nat
deriving DecidableEq

/-- One outcome of `supabase.auth.refreshSession()`, as the client
distinguishes them: a session in `data` with no error; `data.session`
null with no error; or a truthy `refreshError` (a thrown exception is
handled identically to an error result in both interceptors, so it is
folded into `failed`). -/
inductive RefreshResult where
  | ok (session : Session)
  | noSession
  | failed
deriving DecidableEq

/-- A scripted server response to one dispatch: HTTP status plus JSON body. -/
structure ServerResponse where
  status : Nat
  body : JsValue

/-- The world one logical call runs in: wall clock, the provider-held
session, scripted refresh outcomes and server responses — plus the
observable effects the interceptors perform: each network dispatch with
the Authorization header it carried, counts of refresh calls (total and
those triggered reactively by a 401), `signOut` calls, whether
`localStorage`/`sessionStorage` were cleared, redirects to `/`, and the
error-handler log. -/
structure ClientState where
  now : Nat
  session : Option Session
  refreshScript : List RefreshResult
  responses : List ServerResponse
  dispatches : List (Option String)
  refreshCalls : Nat
  reactiveRefreshCalls : Nat
  signOutCalls : Nat
  storageCleared : Bool
  redirects : Nat
  errorLog : List StandardError

/-- A fresh world: scripts set, all effect counters zero. -/
def mkInit (now : Nat) (session : Option Session) (script : List RefreshResult)
    (resps : List ServerResponse) : ClientState :=
  { now := now, session := session, refreshScript := script, responses := resps,
    dispatches := [], refreshCalls := 0, reactiveRefreshCalls := 0,
    signOutCalls := 0, storageCleared := false, redirects := 0, errorLog := [] }

/-- `supabase.auth.refreshSession()`: consume the next scripted outcome
(an exhausted script behaves as a failure); a successful refresh stores
the new session in the provider. -/
def refreshSession (st : ClientState) : RefreshResult × ClientState :=
  match st.refreshScript with
  | [] => (.failed, { st with refreshCalls := st.refreshCalls + 1 })
  | r :: rest =>
    let st1 := { st with refreshScript := rest, refreshCalls := st.refreshCalls + 1 }
    match r with
    | .ok s => (.ok s, { st1 with session := some s })
    | .noSession => (.noSession, st1)
    | .failed => (.failed, st1)

/-- The request interceptor (TOKEN_CHECK): read the current session; with
a token present, refresh proactively when `0 < expires_at − now < 300`
(falling back to the current token when the refresh fails or yields no
token) and attach `Bearer <token>`; without a session or token, leave
the header as the request already carries it. -/
def requestInterceptor (st : ClientState) (auth : Option String) :
    Option String × ClientState :=
  match st.session with
  | none => (auth, st)
  | some s =>
    if s.access_token != "" then
      let expiresAt := s.expires_at.getD 0
      let t : Int := (expiresAt : Int) - (st.now : Int)
      if t < 300 ∧ t > 0 then
        match refreshSession st with
        | (.ok s2, st1) =>
          if s2.access_token != "" then
            (some ("Bearer " ++ s2.access_token), st1)
          else
            (some ("Bearer " ++ s.access_token), st1)
        | (_, st1) => (some ("Bearer " ++ s.access_token), st1)
      else
        (some ("Bearer " ++ s.access_token), st)
    else
      (auth, st)

/-- Send the request: consume the next scripted response and record the
dispatch with its Authorization header.  An exhausted script is modelled
as a status-0 transport-level reply (never reached in the scripted
scenarios below). -/
def dispatch (st : ClientState) (auth : Option String) : ServerResponse × ClientState :=
  match st.responses with
  | [] => ({ status := 0, body := .undefined },
           { st with dispatches := st.dispatches ++ [auth] })
  | r :: rest => (r, { st with responses := rest, dispatches := st.dispatches ++ [auth] })

/-- The value a failed call rejects with: either the raw axios error of
the failing response (identified by its status), or a classified
`StandardError`. -/
inductive Rejection where
  | raw (status : Nat)
  | standard (e : StandardError)

/-- What one logical call settles to. -/
inductive CallResult where
  | success (body : JsValue)
  | rejected (r : Rejection)

/-- The raw axios error object for a response with a non-2xx status, as
`handleApiError` will inspect it: `error.response.status`,
`error.response.data`, `error.message`. -/
def axiosError (resp : ServerResponse) : JsValue :=
  .obj [("response", .obj [("status", .num resp.status), ("data", resp.body)]),
        ("message", .str ("Request failed with status code " ++ toString resp.status))]

/-- `createApiError` applied to the raw axios error of a failed response
(the classifier cannot throw on this object shape; the fallback default
is unreachable). -/
def classifyResponse (resp : ServerResponse) : StandardError :=
  (handleApiError (axiosError resp)).toOption.getD
    (createError .UNKNOWN_ERROR "Unknown error" none .medium)

/-- Forced logout: `supabase.auth.signOut()` (dropping the provider
session), `localStorage.clear()`/`sessionStorage.clear()`, and
`window.location.href = '/'`. -/
def forceLogout (st : ClientState) : ClientState :=
  { st with
    session := none
    signOutCalls := st.signOutCalls + 1
    storageCleared := true
    redirects := st.redirects + 1 }

/-- axios default `validateStatus`: a 2xx resolves. -/
def is2xx (s : Nat) : Bool := 200 ≤ s && s < 300

/-- The retried dispatch `api(originalRequest)` with `_retry` already set:
the request interceptor runs again (overwriting the Authorization header
when the — now refreshed — session carries a token), the response is
dispatched, and any non-2xx outcome, a second 401 included, is classified,
logged and thrown with no further refresh or retry. -/
def runRetry (st : ClientState) (auth : Option String) : CallResult × ClientState :=
  let (auth1, st1) := requestInterceptor st auth
  let (resp, st2) := dispatch st1 auth1
  if is2xx resp.status then
    (.success resp.body, st2)
  else
    let e := classifyResponse resp
    (.rejected (.standard e), { st2 with errorLog := st2.errorLog ++ [e] })

/-- One logical call through both interceptors.  First dispatch after
TOKEN_CHECK; a 2xx resolves; a first 401 sets `_retry`, refreshes the
session reactively and either retries once with the new token or — when
the refresh fails or returns no token — forces logout and rejects with
the raw error; every other failure is classified, logged and thrown. -/
def runCall (st : ClientState) : CallResult × ClientState :=
  let (auth1, st1) := requestInterceptor st none
  let (resp, st2) := dispatch st1 auth1
  if is2xx resp.status then
    (.success resp.body, st2)
  else if resp.status = 401 then
    let (r, st3) := refreshSession st2
    let st4 := { st3 with reactiveRefreshCalls := st3.reactiveRefreshCalls + 1 }
    match r with
    | .ok s =>
      if s.access_token != "" then
        runRetry st4 (some ("Bearer " ++ s.access_token))
      else
        (.rejected (.raw resp.status), forceLogout st4)
    | _ => (.rejected (.raw resp.status), forceLogout st4)
  else
    let e := classifyResponse resp
    (.rejected (.standard e), { st2 with errorLog := st2.errorLog ++ [e] })

/-- `journalApi.getEntries` result extraction:
`(data?.entries as JournalEntry[]) ?? []`. -/
def getEntriesFromBody (data : JsValue) : JsValue :=
  nullish (optChain data "entries") (.arr [])

/-- `journalApi.getEntries(page, perPage)`: run the call; on success hand
the caller `data?.entries ?? []`, on failure propagate the rejection. -/
def journalApi_getEntries (st : ClientState) : Except Rejection JsValue × ClientState :=
  match runCall st with
  | (.success body, st1) => (.ok (getEntriesFromBody body), st1)
  | (.rejected r, st1) => (.error r, st1)

/-- The status the first dispatch of a call will see (0 when the response
script is exhausted, matching `dispatch`). -/
def firstStatus (st : ClientState) : Nat :=
  match st.responses with
  | [] => 0
  | r :: _ => r.status

/-- A concrete record for log scenarios. -/
def sampleError : StandardError :=
  createError .UNKNOWN_ERROR "sample failure" none .medium

/-- Scenario: a valid far-from-expiry session, a provider whose refresh
fails, a server answering 401 — the forced-logout path. -/
def logoutEnv : ClientState :=
  mkInit 1000 (some ⟨"t0", some 999999⟩) [.failed] [⟨401, .null⟩]

/-- Scenario: a valid far-from-expiry session, one successful refresh,
and a server answering 401 to both the first and the retried dispatch. -/
def second401Env : ClientState :=
  mkInit 1000 (some ⟨"t0", some 999999⟩) [.ok ⟨"t1", some 999999⟩]
    [⟨401, .null⟩, ⟨401, .null⟩]

/-- Scenario: a session expiring in 240 seconds (so TOKEN_CHECK refreshes
proactively), a server answering 401 to the first dispatch, and two
successful refreshes scripted. -/
def doubleRefreshEnv : ClientState :=
  mkInit 1000 (some ⟨"t0", some 1240⟩) [.ok ⟨"t1", some 999999⟩, .ok ⟨"t2", some 999999⟩]
    [⟨401, .null⟩, ⟨200, .obj []⟩]

/-- A page-one entries payload as the backend returns it. -/
def entriesPage : JsValue :=
  .obj [("entries", .arr [.str "entry one", .str "entry two"]), ("total", .num 2)]

/-- Scenario: an already-expired token, a provider that refreshes
successfully, a server answering 401 then 200 with an entries page. -/
def expiredTokenEnv : ClientState :=
  mkInit 2000 (some ⟨"oldTok", some 1000⟩) [.ok ⟨"newTok", some 999999⟩]
    [⟨401, .null⟩, ⟨200, entriesPage⟩]

/-! ## Generic reduction helpers -/

@[simp] lemma except_bind_ok {α β ε : Type} (a : α) (f : α → Except ε β) :
    (Except.ok a : Except ε α) >>= f = f a := rfl

@[simp] lemma except_map_ok {α β ε : Type} (g : α → β) (a : α) :
    Except.map g (Except.ok a : Except ε α) = .ok (g a) := rfl

@[simp] lemma except_pure_eq {α ε : Type} (a : α) :
    (pure a : Except ε α) = .ok a := rfl

/-! ## Effect lemmas for the client pipeline -/

lemma refreshSession_fields (st : ClientState) :
    (refreshSession st).2.refreshCalls = st.refreshCalls + 1 ∧
    (refreshSession st).2.dispatches = st.dispatches ∧
    (refreshSession st).2.reactiveRefreshCalls = st.reactiveRefreshCalls ∧
    (refreshSession st).2.signOutCalls = st.signOutCalls ∧
    (refreshSession st).2.storageCleared = st.storageCleared ∧
    (refreshSession st).2.redirects = st.redirects ∧
    (refreshSession st).2.responses = st.responses ∧
    (refreshSession st).2.errorLog = st.errorLog ∧
    (refreshSession st).2.now = st.now := by
  unfold refreshSession
  rcases h : st.refreshScript with _ | ⟨r, rest⟩
  · simp
  · cases r <;> simp

lemma requestInterceptor_fields (st : ClientState) (a : Option String) :
    (requestInterceptor st a).2.dispatches = st.dispatches ∧
    (requestInterceptor st a).2.reactiveRefreshCalls = st.reactiveRefreshCalls ∧
    (requestInterceptor st a).2.signOutCalls = st.signOutCalls ∧
    (requestInterceptor st a).2.storageCleared = st.storageCleared ∧
    (requestInterceptor st a).2.redirects = st.redirects ∧
    (requestInterceptor st a).2.responses = st.responses ∧
    (requestInterceptor st a).2.errorLog = st.errorLog ∧
    (requestInterceptor st a).2.now = st.now ∧
    (requestInterceptor st a).2.refreshCalls ≤ st.refreshCalls + 1 := by
  unfold requestInterceptor
  rcases hs : st.session with _ | s
  · simp
  · dsimp only
    split_ifs with htok hexp
    · rcases hr : refreshSession st with ⟨r, st1⟩
      have f := refreshSession_fields st
      rw [hr] at f
      obtain ⟨f1, f2, f3, f4, f5, f6, f7, f8, f9⟩ := f
      cases r <;> dsimp only <;> (try split_ifs) <;>
        exact ⟨f2, f3, f4, f5, f6, f7, f8, f9, le_of_eq f1⟩
    · simp
    · simp

lemma dispatch_fields (st : ClientState) (a : Option String) :
    (dispatch st a).2.dispatches = st.dispatches ++ [a] ∧
    (dispatch st a).2.refreshCalls = st.refreshCalls ∧
    (dispatch st a).2.reactiveRefreshCalls = st.reactiveRefreshCalls ∧
    (dispatch st a).2.signOutCalls = st.signOutCalls ∧
    (dispatch st a).2.storageCleared = st.storageCleared ∧
    (dispatch st a).2.redirects = st.redirects ∧
    (dispatch st a).2.errorLog = st.errorLog := by
  unfold dispatch
  rcases h : st.responses with _ | ⟨r, rest⟩ <;> simp

lemma runRetry_fields (st : ClientState) (a : Option String) :
    (runRetry st a).2.dispatches.length = st.dispatches.length + 1 ∧
    (runRetry st a).2.reactiveRefreshCalls = st.reactiveRefreshCalls ∧
    (runRetry st a).2.signOutCalls = st.signOutCalls ∧
    (runRetry st a).2.storageCleared = st.storageCleared ∧
    (runRetry st a).2.redirects = st.redirects ∧
    (runRetry st a).2.refreshCalls ≤ st.refreshCalls + 1 ∧
    (∀ r, (runRetry st a).1 = .rejected r → ∃ e, r = .standard e) := by
  unfold runRetry
  rcases h1 : requestInterceptor st a with ⟨a1, st1⟩
  rcases h2 : dispatch st1 a1 with ⟨resp, st2⟩
  have f1 := requestInterceptor_fields st a
  rw [h1] at f1
  have f2 := dispatch_fields st1 a1
  rw [h2] at f2
  have gD : st1.dispatches = st.dispatches := f1.1
  have gR : st1.reactiveRefreshCalls = st.reactiveRefreshCalls := f1.2.1
  have gS : st1.signOutCalls = st.signOutCalls := f1.2.2.1
  have gC : st1.storageCleared = st.storageCleared := f1.2.2.2.1
  have gRe : st1.redirects = st.redirects := f1.2.2.2.2.1
  have gF : st1.refreshCalls ≤ st.refreshCalls + 1 := f1.2.2.2.2.2.2.2.2
  have dD : st2.dispatches = st1.dispatches ++ [a1] := f2.1
  have dF : st2.refreshCalls = st1.refreshCalls := f2.2.1
  have dR : st2.reactiveRefreshCalls = st1.reactiveRefreshCalls := f2.2.2.1
  have dS : st2.signOutCalls = st1.signOutCalls := f2.2.2.2.1
  have dC : st2.storageCleared = st1.storageCleared := f2.2.2.2.2.1
  have dRe : st2.redirects = st1.redirects := f2.2.2.2.2.2.1
  dsimp only
  rw [h2]
  dsimp only
  split_ifs with h2xx
  · refine ⟨?_, by rw [dR, gR], by rw [dS, gS], by rw [dC, gC], by rw [dRe, gRe],
      by rw [dF]; exact gF, fun r hr => by cases hr⟩
    rw [dD, gD]
    simp
  · refine ⟨?_, by rw [dR, gR], by rw [dS, gS], by rw [dC, gC], by rw [dRe, gRe],
      by rw [dF]; exact gF, fun r hr => ?_⟩
    · show (st2.dispatches).length = st.dispatches.length + 1
      rw [dD, gD]
      simp
    · refine ⟨classifyResponse resp, ?_⟩
      have := hr
      injection this with h
      exact h.symm

lemma dispatch_firstStatus (st : ClientState) (a : Option String) :
    (dispatch st a).1.status = firstStatus st := by
  unfold dispatch firstStatus
  rcases st.responses <;> simp

lemma firstStatus_congr {st st1 : ClientState} (h : st1.responses = st.responses) :
    firstStatus st1 = firstStatus st := by
  unfold firstStatus
  rw [h]

lemma requestInterceptor_refreshCalls (st : ClientState) (a : Option String) (s : Session)
    (hs : st.session = some s) (htok : s.access_token ≠ "") :
    (requestInterceptor st a).2.refreshCalls =
      if ((s.expires_at.getD 0 : Int) - (st.now : Int) < 300 ∧
          (s.expires_at.getD 0 : Int) - (st.now : Int) > 0)
      then st.refreshCalls + 1 else st.refreshCalls := by
  unfold requestInterceptor
  rw [hs]
  dsimp only
  split_ifs with ht hc
  · rcases hr : refreshSession st with ⟨r, st1⟩
    have f := refreshSession_fields st
    rw [hr] at f
    cases r <;> (try dsimp only) <;> (try split_ifs) <;> exact f.1
  · rfl
  · simp only [bne_iff_ne, ne_eq, not_not] at ht
    exact absurd ht htok
  · simp only [bne_iff_ne, ne_eq, not_not] at ht
    exact absurd ht htok

lemma classifyResponse_401 (body : JsValue) :
    (classifyResponse ⟨401, body⟩).code = .API_UNAUTHORIZED ∧
    (classifyResponse ⟨401, body⟩).severity = .high ∧
    (classifyResponse ⟨401, body⟩).message = "Unauthorized" ∧
    (classifyResponse ⟨401, body⟩).userMessage = "Please log in to continue." := by
  simp [classifyResponse, handleApiError, axiosError, getProp, propLookup,
    lookupField, truthy, optChain, createError, userMessages, Except.toOption]

/-! ## Claims about the error classification service -/

/-- C3: for every raw error carrying a server response with status `s`
(arbitrary body), the classifier returns exactly the demanded
`(code, severity)` pair — 400→(validation, medium), 401→(unauthorized,
high), 403→(forbidden, high), 404→(not-found, medium), 408→(timeout,
medium), 500/502/503/504→(server-error, high) — and any other status
yields (server-error, medium) with message `"HTTP <status> error"`. -/
theorem classifyHttpFailure_status_pairs (s : Nat) (body : JsValue) :
    (handleApiError (axiosError ⟨s, body⟩)).map (fun r => (r.code, r.severity))
        = .ok (specStatusPair s) ∧
    (s ≠ 400 → s ≠ 401 → s ≠ 403 → s ≠ 404 → s ≠ 408 →
      ¬(s = 500 ∨ s = 502 ∨ s = 503 ∨ s = 504) →
      (handleApiError (axiosError ⟨s, body⟩)).map (fun r => r.message)
        = .ok ("HTTP " ++ toString s ++ " error")) := by
  constructor
  · by_cases h400 : s = 400
    · subst h400
      simp [handleApiError, axiosError, getProp, propLookup, lookupField, truthy, optChain,
        createError, specStatusPair]
    by_cases h401 : s = 401
    · subst h401
      simp [handleApiError, axiosError, getProp, propLookup, lookupField, truthy, optChain,
        createError, specStatusPair]
    by_cases h403 : s = 403
    · subst h403
      simp [handleApiError, axiosError, getProp, propLookup, lookupField, truthy, optChain,
        createError, specStatusPair]
    by_cases h404 : s = 404
    · subst h404
      simp [handleApiError, axiosError, getProp, propLookup, lookupField, truthy, optChain,
        createError, specStatusPair]
    by_cases h408 : s = 408
    · subst h408
      simp [handleApiError, axiosError, getProp, propLookup, lookupField, truthy, optChain,
        createError, specStatusPair]
    by_cases h5xx : s = 500 ∨ s = 502 ∨ s = 503 ∨ s = 504
    · rcases h5xx with h|h|h|h <;> subst h <;>
        simp [handleApiError, axiosError, getProp, propLookup, lookupField, truthy, optChain,
          createError, specStatusPair]
    · simp [handleApiError, axiosError, getProp, propLookup, lookupField, truthy, optChain,
        createError, specStatusPair, h400, h401, h403, h404, h408, h5xx]
  · intro h400 h401 h403 h404 h408 h5xx
    simp [handleApiError, axiosError, getProp, propLookup, lookupField, truthy, optChain,
      createError, h400, h401, h403, h404, h408, h5xx]

/-- C3 witness: status 418 falls into the default bucket, `(server-error,
medium)` with message `"HTTP 418 error"`. -/
theorem classifyHttpFailure_status_pairs_witness :
    (handleApiError (axiosError ⟨418, .obj []⟩)).map (fun r => (r.code, r.severity))
        = .ok (.API_SERVER_ERROR, .medium) ∧
    (handleApiError (axiosError ⟨418, .obj []⟩)).map (fun r => r.message)
        = .ok "HTTP 418 error" := by
  have h := classifyHttpFailure_status_pairs 418 (.obj [])
  refine ⟨?_, ?_⟩
  · have := h.1
    simpa [specStatusPair] using this
  · have := h.2 (by decide) (by decide) (by decide) (by decide) (by decide)
      (by decide)
    simpa using this

/-- C4 (the code bug it documents): `handleApiError` is not total — on a
`null` or `undefined` input the very first `err.response` access throws a
TypeError instead of degrading to the unknown bucket; the degradation the
spec demands does happen for non-null inputs without the expected fields
(a bare number, an empty object). -/
theorem handleApiError_null_throws :
    handleApiError JsValue.null = .error .typeError ∧
    handleApiError JsValue.undefined = .error .typeError ∧
    (handleApiError (.num 5)).map (fun r => (r.code, r.severity))
        = .ok (.UNKNOWN_ERROR, .medium) ∧
    (handleApiError (.obj [])).map (fun r => (r.code, r.severity))
        = .ok (.UNKNOWN_ERROR, .medium) :=
  ⟨rfl, rfl, rfl, rfl⟩

/-- C8 counterexample: the `ErrorCode` enum has 19 members, not 27. -/
theorem errorCode_count_is_19_not_27 :
    allErrorCodes.length = 19 ∧ allErrorCodes.length ≠ 27 := by decide

/-- C8 amended: the `ErrorCode` enum comprises 19 codes (here: a
duplicate-free enumeration covering every constructor), and the static
user-message table is exhaustive over it — every code yields a non-empty
string. -/
theorem errorCode_19_userMessages_exhaustive :
    (∀ c : ErrorCode, c ∈ allErrorCodes) ∧ allErrorCodes.Nodup ∧
    allErrorCodes.length = 19 ∧ (∀ c : ErrorCode, userMessages c ≠ "") := by
  refine ⟨fun c => ?_, by decide, rfl, fun c => ?_⟩
  · cases c <;> simp [allErrorCodes]
  · cases c <;> decide

/-- C9 counterexample: `clearErrorLog` removes previously logged records —
a record just appended by `logError` is no longer in the log after
`clearErrorLog`. -/
theorem clearErrorLog_removes_logged_record :
    sampleError ∈ logError [] sampleError ∧
    sampleError ∉ clearErrorLog (logError [] sampleError) := by
  constructor
  · simp [logError]
  · simp [clearErrorLog]

/-- C9 amended: every operation of the classification service except
`clearErrorLog` only appends: `logError` appends exactly the new record,
keeps every previously logged record and never mutates them, and
`getRecentErrors` is a read returning only logged records; `clearErrorLog`
however empties the log. -/
theorem errorLog_append_only_except_clear
    (log : List StandardError) (e : StandardError) (n : Nat) :
    logError log e = log ++ [e] ∧
    (∀ x ∈ log, x ∈ logError log e) ∧
    e ∈ logError log e ∧
    (∀ x ∈ getRecentErrors n log, x ∈ log) ∧
    clearErrorLog log = [] := by
  refine ⟨rfl, fun x hx => ?_, ?_, fun x hx => ?_, rfl⟩
  · simp [logError, hx]
  · simp [logError]
  · unfold getRecentErrors at hx
    split at hx
    · exact hx
    · exact List.drop_subset _ _ hx

/-- C9 amended witness at a concrete log. -/
theorem errorLog_append_only_witness :
    logError [] sampleError = [sampleError] ∧ clearErrorLog [sampleError] = [] :=
  ⟨(errorLog_append_only_except_clear [] sampleError 1).1,
   (errorLog_append_only_except_clear [sampleError] sampleError 1).2.2.2.2⟩

/-- C10 counterexample: an array body — not a JSON object, and with no
own `entries` field — does NOT resolve to the empty array: `data?.entries`
finds the inherited `Array.prototype.entries` method, which is truthy,
so `?? []` keeps it and the call resolves with that function. -/
theorem getEntries_array_body_inherited :
    getEntriesFromBody (.arr []) = .fn "Array.prototype.entries" ∧
    getEntriesFromBody (.arr []) ≠ .arr [] ∧
    jsField (.arr []) "entries" = none ∧
    (journalApi_getEntries (mkInit 0 none [] [⟨200, .arr []⟩])).1
        = .ok (.fn "Array.prototype.entries") := by
  refine ⟨rfl, ?_, rfl, rfl⟩
  intro hcontra
  exact JsValue.noConfusion hcontra

/-- C10 amended: when a 2xx response body is null/undefined, a non-array
primitive, or an object with no `entries` field, `getEntries` resolves
with the empty array — both for the raw extraction and through the whole
client pipeline; an array body is the exception, resolving with the
inherited `Array.prototype.entries` method instead. -/
theorem getEntries_missing_entries_empty (v : JsValue)
    (harr : ∀ xs, v ≠ .arr xs) (h : jsField v "entries" = none) :
    getEntriesFromBody v = .arr [] ∧
    (journalApi_getEntries (mkInit 0 none [] [⟨200, v⟩])).1 = .ok (.arr []) := by
  have hbody : getEntriesFromBody v = .arr [] := by
    cases v with
    | obj fs =>
      simp only [jsField] at h
      simp [getEntriesFromBody, optChain, propLookup, nullish, h]
    | arr xs => exact absurd rfl (harr xs)
    | _ => rfl
  refine ⟨hbody, ?_⟩
  simp [journalApi_getEntries, runCall, requestInterceptor, dispatch, mkInit,
    is2xx, hbody]

/-- C10 witness: a body with a `total` field but no `entries` field. -/
theorem getEntries_missing_entries_witness :
    getEntriesFromBody (.obj [("total", .num 0)]) = .arr [] ∧
    (journalApi_getEntries
        (mkInit 0 none [] [⟨200, .obj [("total", .num 0)]⟩])).1 = .ok (.arr []) :=
  getEntries_missing_entries_empty (.obj [("total", .num 0)])
    (fun _ hcontra => JsValue.noConfusion hcontra) rfl

/-! ## Claims about the resilient API client -/

/-- C1 counterexample: when the retried dispatch returns a second 401, the
client does NOT take the forced-logout path — no `signOut`, no storage
clear, no redirect, the provider session is kept — it only rejects with
the classified unauthorized record after exactly two dispatches. -/
theorem second401_no_forced_logout :
    (runCall second401Env).1
        = .rejected (.standard (classifyResponse ⟨401, .null⟩)) ∧
    (runCall second401Env).2.signOutCalls = 0 ∧
    (runCall second401Env).2.storageCleared = false ∧
    (runCall second401Env).2.redirects = 0 ∧
    (runCall second401Env).2.session = some ⟨"t1", some 999999⟩ ∧
    (runCall second401Env).2.dispatches.length = 2 ∧
    (classifyResponse ⟨401, .null⟩).code = .API_UNAUTHORIZED :=
  ⟨rfl, rfl, rfl, rfl, rfl, rfl, rfl⟩

/-- C1 amended: a second 401 on the retried dispatch is terminal — no
further retry happens and the call rejects with the classified
unauthorized (high-severity) ErrorRecord — but the client does not invalidate the
provider session, clear persisted state, or redirect; forced logout runs
only when the refresh itself fails or returns no token. -/
theorem second401_terminal_classified
    (now e1 e2 : Nat) (tok newTok : String) (b1 b2 : JsValue)
    (rest : List ServerResponse) (script : List RefreshResult)
    (htok : tok ≠ "") (hnew : newTok ≠ "")
    (hw1 : ¬((e1 : Int) - (now : Int) < 300 ∧ (e1 : Int) - (now : Int) > 0))
    (hw2 : ¬((e2 : Int) - (now : Int) < 300 ∧ (e2 : Int) - (now : Int) > 0)) :
    (runCall (mkInit now (some ⟨tok, some e1⟩) (.ok ⟨newTok, some e2⟩ :: script)
        (⟨401, b1⟩ :: ⟨401, b2⟩ :: rest))).1
      = .rejected (.standard (classifyResponse ⟨401, b2⟩)) ∧
    (classifyResponse ⟨401, b2⟩).code = .API_UNAUTHORIZED ∧
    (classifyResponse ⟨401, b2⟩).severity = .high ∧
    (runCall (mkInit now (some ⟨tok, some e1⟩) (.ok ⟨newTok, some e2⟩ :: script)
        (⟨401, b1⟩ :: ⟨401, b2⟩ :: rest))).2.dispatches
      = [some ("Bearer " ++ tok), some ("Bearer " ++ newTok)] ∧
    (runCall (mkInit now (some ⟨tok, some e1⟩) (.ok ⟨newTok, some e2⟩ :: script)
        (⟨401, b1⟩ :: ⟨401, b2⟩ :: rest))).2.signOutCalls = 0 ∧
    (runCall (mkInit now (some ⟨tok, some e1⟩) (.ok ⟨newTok, some e2⟩ :: script)
        (⟨401, b1⟩ :: ⟨401, b2⟩ :: rest))).2.storageCleared = false ∧
    (runCall (mkInit now (some ⟨tok, some e1⟩) (.ok ⟨newTok, some e2⟩ :: script)
        (⟨401, b1⟩ :: ⟨401, b2⟩ :: rest))).2.redirects = 0 := by
  have hw1a : ¬((e1 : Int) - (now : Int) < 300 ∧ now < e1) := by
    simpa [sub_pos] using hw1
  have hw2a : ¬((e2 : Int) - (now : Int) < 300 ∧ now < e2) := by
    simpa [sub_pos] using hw2
  refine ⟨?_, (classifyResponse_401 b2).1, (classifyResponse_401 b2).2.1,
    ?_, ?_, ?_, ?_⟩ <;>
    simp [runCall, runRetry, requestInterceptor, refreshSession, dispatch, mkInit,
      is2xx, htok, hnew, hw1a, hw2a]

/-- C1 amended witness: all hypotheses at a concrete far-from-expiry
environment. -/
theorem second401_terminal_classified_witness :
    (runCall (mkInit 1000 (some ⟨"a0", some 999999⟩) [.ok ⟨"a1", some 999999⟩]
        [⟨401, .num 1⟩, ⟨401, .num 2⟩])).1
      = .rejected (.standard (classifyResponse ⟨401, .num 2⟩)) ∧
    (runCall (mkInit 1000 (some ⟨"a0", some 999999⟩) [.ok ⟨"a1", some 999999⟩]
        [⟨401, .num 1⟩, ⟨401, .num 2⟩])).2.signOutCalls = 0 := by
  have h := second401_terminal_classified 1000 999999 999999 "a0" "a1"
    (.num 1) (.num 2) [] [] (by decide) (by decide) (by decide) (by decide)
  exact ⟨h.1, h.2.2.2.2.1⟩

/-- C2 counterexample: when the reactive refresh fails, the terminal
failure rejects with the RAW axios error (identified here by its 401
status), not with an ErrorRecord, while forcing logout. -/
theorem refresh_failure_raw_rejection :
    (runCall logoutEnv).1 = .rejected (.raw 401) ∧
    (runCall logoutEnv).2.signOutCalls = 1 ∧
    (runCall logoutEnv).2.storageCleared = true :=
  ⟨rfl, rfl, rfl⟩

/-- C2 amended: every terminal failure rejects with a classified
`StandardError` except the forced-logout branches (refresh failed or
returned no usable token after a 401), which reject the raw original
error while signing out, clearing storage and redirecting. -/
theorem rejections_classified_unless_logout (st stF : ClientState) (r : Rejection)
    (h : runCall st = (.rejected r, stF)) :
    (∃ e, r = .standard e) ∨
    ((∃ s, r = .raw s) ∧ stF.signOutCalls = st.signOutCalls + 1 ∧
      stF.storageCleared = true ∧ stF.redirects = st.redirects + 1) := by
  rcases h1 : requestInterceptor st none with ⟨a1, st1⟩
  rcases h2 : dispatch st1 a1 with ⟨resp, st2⟩
  have f1 := requestInterceptor_fields st none
  rw [h1] at f1
  have f2 := dispatch_fields st1 a1
  rw [h2] at f2
  have gS : st1.signOutCalls = st.signOutCalls := f1.2.2.1
  have gC : st1.storageCleared = st.storageCleared := f1.2.2.2.1
  have gRe : st1.redirects = st.redirects := f1.2.2.2.2.1
  have dS : st2.signOutCalls = st1.signOutCalls := f2.2.2.2.1
  have dC : st2.storageCleared = st1.storageCleared := f2.2.2.2.2.1
  have dRe : st2.redirects = st1.redirects := f2.2.2.2.2.2.1
  unfold runCall at h
  rw [h1] at h
  dsimp only at h
  rw [h2] at h
  dsimp only at h
  split_ifs at h with hsucc h401
  · exact absurd (congrArg Prod.fst h) (by simp)
  · rcases h3 : refreshSession st2 with ⟨r0, st3⟩
    rw [h3] at h
    have f3 := refreshSession_fields st2
    rw [h3] at f3
    have eS : st3.signOutCalls = st2.signOutCalls := f3.2.2.2.1
    have eC : st3.storageCleared = st2.storageCleared := f3.2.2.2.2.1
    have eRe : st3.redirects = st2.redirects := f3.2.2.2.2.2.1
    cases r0 with
    | ok s =>
      dsimp only at h
      split_ifs at h with htok2
      · have rr := runRetry_fields
          { st3 with reactiveRefreshCalls := st3.reactiveRefreshCalls + 1 }
          (some ("Bearer " ++ s.access_token))
        have hfst := congrArg Prod.fst h
        dsimp only at hfst
        obtain ⟨e, he⟩ := rr.2.2.2.2.2.2 r hfst
        exact Or.inl ⟨e, he⟩
      · rw [Prod.mk.injEq] at h
        obtain ⟨hr, hstF⟩ := h
        injection hr with hr2
        refine Or.inr ⟨⟨resp.status, hr2.symm⟩, ?_, ?_, ?_⟩ <;>
          rw [← hstF] <;>
          simp [forceLogout, eS, dS, gS, eC, eRe, dRe, gRe]
    | noSession =>
      dsimp only at h
      rw [Prod.mk.injEq] at h
      obtain ⟨hr, hstF⟩ := h
      injection hr with hr2
      refine Or.inr ⟨⟨resp.status, hr2.symm⟩, ?_, ?_, ?_⟩ <;>
        rw [← hstF] <;>
        simp [forceLogout, eS, dS, gS, eC, eRe, dRe, gRe]
    | failed =>
      dsimp only at h
      rw [Prod.mk.injEq] at h
      obtain ⟨hr, hstF⟩ := h
      injection hr with hr2
      refine Or.inr ⟨⟨resp.status, hr2.symm⟩, ?_, ?_, ?_⟩ <;>
        rw [← hstF] <;>
        simp [forceLogout, eS, dS, gS, eC, eRe, dRe, gRe]
  · rw [Prod.mk.injEq] at h
    obtain ⟨hr, hstF⟩ := h
    injection hr with hr2
    exact Or.inl ⟨classifyResponse resp, hr2.symm⟩

/-- C2 amended witness: the forced-logout scenario discharges the
hypothesis concretely. -/
theorem rejections_classified_witness :
    (∃ e, Rejection.raw 401 = Rejection.standard e) ∨
    ((∃ s, Rejection.raw 401 = Rejection.raw s) ∧
      (runCall logoutEnv).2.signOutCalls = logoutEnv.signOutCalls + 1 ∧
      (runCall logoutEnv).2.storageCleared = true ∧
      (runCall logoutEnv).2.redirects = logoutEnv.redirects + 1) :=
  rejections_classified_unless_logout logoutEnv (runCall logoutEnv).2 (.raw 401) rfl

/-- C5 counterexample: one logical call can trigger TWO token refreshes —
a proactive one in TOKEN_CHECK (token expiring in 240 s) followed by the
reactive one after a 401 — so `at most one token refresh per call` fails
as stated. -/
theorem two_refreshes_single_call :
    (runCall doubleRefreshEnv).2.refreshCalls = 2 ∧
    (runCall doubleRefreshEnv).2.reactiveRefreshCalls = 1 ∧
    (runCall doubleRefreshEnv).2.dispatches.length = 2 :=
  ⟨rfl, rfl, rfl⟩

/-- C5 amended: per logical call at most one REACTIVE refresh and at most
one retried dispatch occur (at most two dispatches, at most three refresh
calls counting proactive ones), and only a 401 first response triggers
the refresh-retry path: on any other first status exactly one dispatch
and no reactive refresh happen. -/
theorem at_most_one_retry (st : ClientState) :
    (runCall st).2.dispatches.length ≤ st.dispatches.length + 2 ∧
    (runCall st).2.reactiveRefreshCalls ≤ st.reactiveRefreshCalls + 1 ∧
    (runCall st).2.refreshCalls ≤ st.refreshCalls + 3 ∧
    (firstStatus st ≠ 401 →
      (runCall st).2.dispatches.length = st.dispatches.length + 1 ∧
      (runCall st).2.reactiveRefreshCalls = st.reactiveRefreshCalls) := by
  rcases h1 : requestInterceptor st none with ⟨a1, st1⟩
  rcases h2 : dispatch st1 a1 with ⟨resp, st2⟩
  have f1 := requestInterceptor_fields st none
  rw [h1] at f1
  have f2 := dispatch_fields st1 a1
  rw [h2] at f2
  have gD : st1.dispatches = st.dispatches := f1.1
  have gR : st1.reactiveRefreshCalls = st.reactiveRefreshCalls := f1.2.1
  have gRes : st1.responses = st.responses := f1.2.2.2.2.2.1
  have gF : st1.refreshCalls ≤ st.refreshCalls + 1 := f1.2.2.2.2.2.2.2.2
  have dD : st2.dispatches = st1.dispatches ++ [a1] := f2.1
  have dF : st2.refreshCalls = st1.refreshCalls := f2.2.1
  have dR : st2.reactiveRefreshCalls = st1.reactiveRefreshCalls := f2.2.2.1
  have hst : resp.status = firstStatus st := by
    have := dispatch_firstStatus st1 a1
    rw [h2] at this
    exact this.trans (firstStatus_congr gRes)
  unfold runCall
  rw [h1]
  dsimp only
  rw [h2]
  dsimp only
  split_ifs with hsucc h401
  · refine ⟨?_, ?_, ?_, fun _ => ⟨?_, ?_⟩⟩ <;>
      simp [dD, gD, dR, gR, dF] <;> omega
  · rcases h3 : refreshSession st2 with ⟨r, st3⟩
    have f3 := refreshSession_fields st2
    rw [h3] at f3
    have eF : st3.refreshCalls = st2.refreshCalls + 1 := f3.1
    have eD : st3.dispatches = st2.dispatches := f3.2.1
    have eR : st3.reactiveRefreshCalls = st2.reactiveRefreshCalls := f3.2.2.1
    have hcontra : firstStatus st = 401 := by rw [← hst]; exact h401
    cases r with
    | ok s =>
      dsimp only
      split_ifs with htok2
      · have rr := runRetry_fields
          { st3 with reactiveRefreshCalls := st3.reactiveRefreshCalls + 1 }
          (some ("Bearer " ++ s.access_token))
        refine ⟨?_, ?_, ?_, fun hne => absurd hcontra hne⟩
        · have := rr.1
          simp only at this
          rw [this, eD, dD, gD]
          simp
        · have := rr.2.1
          simp only at this
          rw [this]
          try dsimp only
          rw [eR, dR, gR]
        · have := rr.2.2.2.2.2.1
          simp only at this
          refine le_trans this ?_
          try dsimp only
          rw [eF, dF]
          omega
      · refine ⟨?_, ?_, ?_, fun hne => absurd hcontra hne⟩ <;>
          simp [forceLogout, eD, dD, gD, eR, dR, gR, eF, dF] <;> omega
    | noSession =>
      try dsimp only
      refine ⟨?_, ?_, ?_, fun hne => absurd hcontra hne⟩ <;>
        simp [forceLogout, eD, dD, gD, eR, dR, gR, eF, dF] <;> omega
    | failed =>
      try dsimp only
      refine ⟨?_, ?_, ?_, fun hne => absurd hcontra hne⟩ <;>
        simp [forceLogout, eD, dD, gD, eR, dR, gR, eF, dF] <;> omega
  · refine ⟨?_, ?_, ?_, fun _ => ⟨?_, ?_⟩⟩ <;>
      simp [dD, gD, dR, gR, dF] <;> omega

/-- C5 amended witness: a 500 first response yields exactly one dispatch
and no reactive refresh. -/
theorem at_most_one_retry_witness :
    (runCall (mkInit 0 none [] [⟨500, .null⟩])).2.dispatches.length ≤ 2 ∧
    (runCall (mkInit 0 none [] [⟨500, .null⟩])).2.dispatches.length = 1 ∧
    (runCall (mkInit 0 none [] [⟨500, .null⟩])).2.reactiveRefreshCalls = 0 := by
  have h := at_most_one_retry (mkInit 0 none [] [⟨500, .null⟩])
  have h4 := h.2.2.2 (by decide)
  exact ⟨h.1, h4.1, h4.2⟩

/-- C6: TOKEN_CHECK with a token present performs exactly one proactive
refresh call if and only if the time until expiry is strictly between 0
and 300 seconds, and no other refresh occurs on a call whose dispatch
succeeds. -/
theorem tokenCheck_proactive_refresh_iff
    (now expiresAt : Nat) (tok : String) (script : List RefreshResult)
    (resps : List ServerResponse) (body : JsValue) (htok : tok ≠ "") :
    ((requestInterceptor (mkInit now (some ⟨tok, some expiresAt⟩) script resps)
        none).2.refreshCalls
      = if ((expiresAt : Int) - (now : Int) < 300 ∧ (expiresAt : Int) - (now : Int) > 0)
        then 1 else 0) ∧
    ((runCall (mkInit now (some ⟨tok, some expiresAt⟩) script
        [⟨200, body⟩])).2.refreshCalls
      = if ((expiresAt : Int) - (now : Int) < 300 ∧ (expiresAt : Int) - (now : Int) > 0)
        then 1 else 0) := by
  constructor
  · have h := requestInterceptor_refreshCalls
      (mkInit now (some ⟨tok, some expiresAt⟩) script resps) none
      ⟨tok, some expiresAt⟩ rfl htok
    simpa [mkInit] using h
  · rcases h1 : requestInterceptor
      (mkInit now (some ⟨tok, some expiresAt⟩) script [⟨200, body⟩]) none with ⟨a1, st1⟩
    rcases h2 : dispatch st1 a1 with ⟨resp, st2⟩
    have f1 := requestInterceptor_fields
      (mkInit now (some ⟨tok, some expiresAt⟩) script [⟨200, body⟩]) none
    rw [h1] at f1
    have f2 := dispatch_fields st1 a1
    rw [h2] at f2
    have hresp : st1.responses = [⟨200, body⟩] := f1.2.2.2.2.2.1
    have hcalls := requestInterceptor_refreshCalls
      (mkInit now (some ⟨tok, some expiresAt⟩) script [⟨200, body⟩]) none
      ⟨tok, some expiresAt⟩ rfl htok
    rw [h1] at hcalls
    have hstat : resp.status = 200 := by
      have := dispatch_firstStatus st1 a1
      rw [h2] at this
      dsimp only at this
      rw [this]
      unfold firstStatus
      rw [hresp]
    unfold runCall
    rw [h1]
    dsimp only
    rw [h2]
    dsimp only
    rw [hstat]
    have h2xx : is2xx 200 = true := rfl
    rw [if_pos h2xx]
    dsimp only
    have dF : st2.refreshCalls = st1.refreshCalls := f2.2.1
    rw [dF]
    simpa [mkInit] using hcalls

/-- C6 witness: a session expiring in 240 seconds triggers exactly one
proactive refresh; one expiring in 600 seconds triggers none. -/
theorem tokenCheck_proactive_refresh_witness :
    (requestInterceptor (mkInit 1000 (some ⟨"tk", some 1240⟩) [] []) none).2.refreshCalls = 1 ∧
    (requestInterceptor (mkInit 1000 (some ⟨"tk", some 1600⟩) [] []) none).2.refreshCalls = 0 ∧
    (runCall (mkInit 1000 (some ⟨"tk", some 1240⟩) [] [⟨200, .null⟩])).2.refreshCalls = 1 ∧
    (runCall (mkInit 1000 (some ⟨"tk", some 1600⟩) [] [⟨200, .null⟩])).2.refreshCalls = 0 := by
  have h240 := tokenCheck_proactive_refresh_iff 1000 1240 "tk" [] [] .null (by decide)
  have h600 := tokenCheck_proactive_refresh_iff 1000 1600 "tk" [] [] .null (by decide)
  refine ⟨?_, ?_, ?_, ?_⟩
  · have := h240.1; rw [if_pos (by decide)] at this; exact this
  · have := h600.1; rw [if_neg (by decide)] at this; exact this
  · have := h240.2; rw [if_pos (by decide)] at this; exact this
  · have := h600.2; rw [if_neg (by decide)] at this; exact this

/-- C7: a `GET /entries/` call with an already-expired token and a
provider whose refresh succeeds resolves with the entries and surfaces no
error (nothing logged, no logout), performing exactly two dispatches: the
first with the old token (answered 401), the retried one carrying the new
token in its Authorization header. -/
theorem expired_token_refresh_retry_entries :
    (journalApi_getEntries expiredTokenEnv).1
        = .ok (.arr [.str "entry one", .str "entry two"]) ∧
    (journalApi_getEntries expiredTokenEnv).2.dispatches
        = [some "Bearer oldTok", some "Bearer newTok"] ∧
    (journalApi_getEntries expiredTokenEnv).2.dispatches.length = 2 ∧
    (journalApi_getEntries expiredTokenEnv).2.refreshCalls = 1 ∧
    (journalApi_getEntries expiredTokenEnv).2.signOutCalls = 0 ∧
    (journalApi_getEntries expiredTokenEnv).2.errorLog = [] :=
  ⟨rfl, rfl, rfl, rfl, rfl, rfl⟩

end Eunoia
